import Mathlib

/-!
Shallow embedding of the drone_plotter core (src/io.rs and src/main.rs).

The ingestion worker (`input_thread` in io.rs) reads lines, splits them on
the comma, parses each token as an `f64`, filters non-finite values, and
validates the count of parsed values against the shared atomic
`VALS_PER_LINE`.  The render loop (`PlotterApp::update` / `apply_mode` in
main.rs) drains records into per-channel ring buffers
(`ConstGenericRingBuffer<f64, MAX_HISTORY_LEN>`), keeps counters, and on a
mode change stores the new dimension and reallocates the buffers.

Embedding conventions:
- `f64` parsing and finiteness cannot be embedded exactly (floating point),
  so they are abstracted as a `FloatModel` parameter: `parse` stands for
  `str::parse::<f64>` (`None` = parse error) and `isFinite` for
  `f64::is_finite` on the parsed value.  `toyFloat` below is a concrete
  executable instance used to evaluate the model on explicit inputs.
- A Rust panic (`unwrap` on `Err`, index out of bounds) is modelled as
  `Option.none`.
- An input line is modelled by its token list, i.e. the result of Rust's
  `line.split(',')`; the raw line that appears inside diagnostics is
  recovered as `String.intercalate "," tokens` (split and intercalate are
  mutually inverse for the comma separator).
- Channels are modelled as the lists of values sent on them, in send
  order; the per-line dimension is the value of `VALS_PER_LINE` observed
  by that loop iteration.
-/

/-- Abstraction of the `f64` semantics used by io.rs: `parse` models
`str::parse::<f64>` (`none` = `Err`), `isFinite` models `f64::is_finite`. -/
structure FloatModel (V : Type) where
  parse : String → Option V
  isFinite : V → Bool

/-- Single-quote character, written by code point to keep the source ASCII-clean;
io.rs quotes the raw line with it in the cardinality-mismatch diagnostic. -/
def squote : String := String.singleton (Char.ofNat 39)

/-- Diagnostic sent by io.rs for a token that parses but is not finite:
format string "Skipping non-finite value: {}". -/
def nonfiniteMsg (s : String) : String := "Skipping non-finite value: " ++ s

/-- Diagnostic sent by io.rs when the parsed-value count differs from the
expected nonzero dimension: format string
"Skipping line with unexpected number of values (expected {}, got {}): {:?}"
(with the raw line single-quoted). -/
def mismatchMsg (expected got : Nat) (line : String) : String :=
  "Skipping line with unexpected number of values (expected " ++ toString expected ++
    ", got " ++ toString got ++ "): " ++ squote ++ line ++ squote

variable {V : Type}

/-- Embedding of the `filter_map` pass in io.rs lines 45-59: first component
is the list of parsed finite values (in token order), second is the list of
diagnostics sent while parsing (in token order).  A token whose parse fails
contributes nothing to either component (`.ok()` discards the error before
the `and_then`); a token that parses to a non-finite value contributes a
`nonfiniteMsg` diagnostic; a finite token contributes its value. -/
def parseTokens (M : FloatModel V) : List String → List V × List String
  | [] => ([], [])
  | s :: rest =>
    let r := parseTokens M rest
    match M.parse s with
    | none => r
    | some v => if M.isFinite v then (v :: r.1, r.2) else (r.1, nonfiniteMsg s :: r.2)

/-- Value a single token contributes to the parsed list, if any
(the body of the `filter_map` closure without its message side effect). -/
def tokVal (M : FloatModel V) (s : String) : Option V :=
  match M.parse s with
  | none => none
  | some v => if M.isFinite v then some v else none

/-- Whether a single token triggers the non-finite diagnostic:
it parses, but the parsed value is not finite. -/
def tokBad (M : FloatModel V) (s : String) : Bool :=
  match M.parse s with
  | none => false
  | some v => !M.isFinite v

/-- Embedding of one iteration of the read loop in io.rs lines 44-71 for a
successfully read line, given the value `dim` of `VALS_PER_LINE` observed by
that iteration.  Returns the records sent on the data channel and the
diagnostics sent on the message channel, in send order.  `toks` is the
result of splitting the line on the comma; the raw line is their
intercalation. -/
def input_line_step (M : FloatModel V) (dim : Nat) (toks : List String) :
    List (List V) × List String :=
  let p := parseTokens M toks
  if p.1.length = dim then
    ([p.1], p.2)
  else if dim ≠ 0 then
    ([], p.2 ++ [mismatchMsg dim p.1.length (String.intercalate "," toks)])
  else
    ([], p.2)

/-- Input-port path constant from io.rs. -/
def IN_PORT_PATH : String := "/dev/tty.usbmodem0xC0DECAFE1"

/-- Final diagnostic sent after the read loop in io.rs lines 76-78. -/
def exitingMsg : String := "Standard input reader thread exiting."

/-- Diagnostic sent when opening the input port fails (io.rs lines 32-36);
`e` stands for the `Debug` rendering of the error. -/
def openFailMsg (e : String) : String :=
  "Failed to open log port " ++ IN_PORT_PATH ++ ": " ++ e

/-- Embedding of the read loop in io.rs lines 42-75.  Each element models one
`line_result`: `none` is a read error (skipped by the `Err(_) => {}` arm),
`some toks` a line with token list `toks`; the `Nat` is the `VALS_PER_LINE`
value observed by that iteration. -/
def run_lines (M : FloatModel V) : List (Option (List String) × Nat) → List (List V) × List String
  | [] => ([], [])
  | (none, _) :: rest => run_lines M rest
  | (some toks, dim) :: rest =>
    let a := input_line_step M dim toks
    let b := run_lines M rest
    (a.1 ++ b.1, a.2 ++ b.2)

/-- Embedding of `input_thread` (io.rs lines 29-79).  `openResult` is the
outcome of `open_serial_port(IN_PORT_PATH)`: on error the failure diagnostic
is sent and the function returns without reading; on success the read loop
runs and the exiting diagnostic is sent last. -/
def input_thread (M : FloatModel V)
    (openResult : Except String (List (Option (List String) × Nat))) :
    List (List V) × List String :=
  match openResult with
  | Except.error e => ([], [openFailMsg e])
  | Except.ok lines =>
    let r := run_lines M lines
    (r.1, r.2 ++ [exitingMsg])

/-- Concrete executable instance of the f64 abstraction, used to evaluate the
model on explicit inputs: integers in decimal notation parse, any other token
fails to parse, and magnitudes of at least 1000000 play the role of values
that parse to an infinity (non-finite). -/
def charDigit (c : Char) : Option Nat :=
  if c.isDigit then some (c.toNat - 48) else none

/-- Accumulating decimal reader over the characters of a token. -/
def natOfDigits (acc : Nat) : List Char → Option Nat
  | [] => some acc
  | c :: rest =>
    match charDigit c with
    | none => none
    | some d => natOfDigits (acc * 10 + d) rest

/-- Toy decimal-integer parser (optionally signed); `none` on the empty
token, a bare minus sign, or any non-digit character. -/
def toyParse (s : String) : Option Int :=
  match s.data with
  | [] => none
  | c :: rest =>
    if c = '-' then
      match rest with
      | [] => none
      | _ => (natOfDigits 0 rest).map (fun n => -(n : Int))
    else
      (natOfDigits 0 s.data).map (fun n => (n : Int))

/-- The concrete `FloatModel` instance used for explicit evaluations. -/
def toyFloat : FloatModel Int where
  parse := toyParse
  isFinite := fun v => decide (-1000000 < v ∧ v < 1000000)

/-- Telemetry mode enumeration from main.rs (`TeleCategory`). -/
inductive TeleCategory where
  | None
  | Imu
  | Attitude
  | Pid
  | Mix
  | Dshot
deriving DecidableEq

/-- Channel count of each mode (`PlotterApp::mode_to_dim`). -/
def mode_to_dim : TeleCategory → Nat
  | TeleCategory.None => 0
  | TeleCategory.Imu => 9
  | TeleCategory.Attitude => 3
  | TeleCategory.Pid => 4
  | TeleCategory.Mix => 4
  | TeleCategory.Dshot => 4

/-- Ring-buffer capacity constant from main.rs. -/
def MAX_HISTORY_LEN : Nat := 512

/-- Embedding of `ConstGenericRingBuffer::<f64, MAX_HISTORY_LEN>::enqueue`:
the buffer is the list of retained samples, oldest first; pushing into a full
buffer evicts the oldest sample. -/
def enqueue (buf : List V) (x : V) : List V :=
  if buf.length < MAX_HISTORY_LEN then buf ++ [x] else buf.tail ++ [x]

/-- State of `PlotterApp` relevant to the core (main.rs lines 58-66), plus
the shared atomic `VALS_PER_LINE`, whose only writer is `apply_mode` on the
UI thread. -/
structure AppState (V : Type) where
  vals_per_line : Nat
  data_history : List (List V)
  msg_history : List String
  tele_mode : TeleCategory
  lines_count : Nat
  lines_since_update : Nat
deriving DecidableEq

/-- Embedding of `PlotterApp::apply_mode` (main.rs lines 117-124): store the
new dimension in `VALS_PER_LINE`, reallocate `data_history` as `new_dim`
fresh empty buffers, then `write_all(...).unwrap()` the mode command to the
output port.  `writeOk` is the outcome of that write; `unwrap` panics
(`none`) when it fails. -/
def apply_mode (s : AppState V) (writeOk : Bool) : Option (AppState V) :=
  let new_dim := mode_to_dim s.tele_mode
  let s2 : AppState V :=
    { s with vals_per_line := new_dim, data_history := List.replicate new_dim [] }
  if writeOk then some s2 else none

/-- The combo-box handler (main.rs lines 163-169): `selectable_value` sets
`tele_mode` to the chosen option, then `apply_mode` runs. -/
def select_mode (s : AppState V) (m : TeleCategory) (writeOk : Bool) : Option (AppState V) :=
  apply_mode { s with tele_mode := m } writeOk

/-- Embedding of one iteration of the drain loop in `PlotterApp::update`
(main.rs lines 131-140) for one received record: read `VALS_PER_LINE`; when
it is positive, increment `lines_count`, enqueue `record[i]` into
`data_history[i]` for `i < vals`, and increment `lines_since_update`.
Indexing `data_history[i]` or `values[i]` out of bounds panics (`none`). -/
def drain_one (s : AppState V) (record : List V) : Option (AppState V) :=
  let vals := s.vals_per_line
  if 0 < vals then
    if vals ≤ s.data_history.length ∧ vals ≤ record.length then
      some { s with
        lines_count := s.lines_count + 1,
        data_history :=
          List.zipWith enqueue (s.data_history.take vals) (record.take vals) ++
            s.data_history.drop vals,
        lines_since_update := s.lines_since_update + 1 }
    else none
  else some s

/-- The full drain loop of one tick: records drained in FIFO arrival order,
stopping (crashed process) at the first panic. -/
def drain_all (s : AppState V) : List (List V) → Option (AppState V)
  | [] => some s
  | r :: rs =>
    match drain_one s r with
    | none => none
    | some s2 => drain_all s2 rs

/-- Closed form of the parsing pass: the parsed values are the `filterMap` of
`tokVal` over the tokens, and the diagnostics are one `nonfiniteMsg` per
token that parses to a non-finite value, in token order. -/
theorem parseTokens_spec (M : FloatModel V) (toks : List String) :
    (parseTokens M toks).1 = toks.filterMap (tokVal M) ∧
    (parseTokens M toks).2 = (toks.filter (fun s => tokBad M s)).map nonfiniteMsg := by
  induction toks with
  | nil => exact ⟨rfl, rfl⟩
  | cons s rest ih =>
    obtain ⟨ih1, ih2⟩ := ih
    cases hp : M.parse s with
    | none =>
      simp [parseTokens, tokVal, tokBad, hp, ih1, ih2, List.filterMap_cons, List.filter_cons]
    | some v =>
      cases hf : M.isFinite v with
      | true =>
        simp [parseTokens, tokVal, tokBad, hp, hf, ih1, ih2, List.filterMap_cons,
          List.filter_cons]
      | false =>
        simp [parseTokens, tokVal, tokBad, hp, hf, ih1, ih2, List.filterMap_cons,
          List.filter_cons]

/-- Closed form of repeatedly enqueueing into a ring buffer that starts at or
below capacity: the result is the capacity-sized tail of the concatenation. -/
theorem foldl_enqueue_closed (xs : List V) : ∀ buf : List V, buf.length ≤ MAX_HISTORY_LEN →
    List.foldl enqueue buf xs = (buf ++ xs).drop (buf.length + xs.length - MAX_HISTORY_LEN) := by
  induction xs with
  | nil =>
    intro buf h
    simp only [List.foldl_nil, List.append_nil, List.length_nil, Nat.add_zero]
    rw [Nat.sub_eq_zero_of_le h, List.drop_zero]
  | cons x t ih =>
    intro buf h
    rw [List.foldl_cons]
    by_cases hlt : buf.length < MAX_HISTORY_LEN
    · have he : enqueue buf x = buf ++ [x] := by simp [enqueue, hlt]
      rw [he, ih (buf ++ [x]) (by simp; omega)]
      have e1 : (buf ++ [x]).length + t.length = buf.length + (x :: t).length := by
        simp; omega
      rw [e1, List.append_assoc]
      simp
    · have hlen : buf.length = MAX_HISTORY_LEN := by omega
      cases buf with
      | nil => simp [MAX_HISTORY_LEN] at hlen
      | cons b bt =>
        have hbt : bt.length + 1 = MAX_HISTORY_LEN := by simpa using hlen
        have he : enqueue (b :: bt) x = bt ++ [x] := by
          simp only [enqueue, List.length_cons, List.tail_cons]
          rw [if_neg (by omega)]
        rw [he]
        rw [ih (bt ++ [x]) (by simp; omega)]
        have e1 : (bt ++ [x]).length + t.length - MAX_HISTORY_LEN = t.length := by
          simp; omega
        have e2 : (b :: bt).length + (x :: t).length - MAX_HISTORY_LEN = t.length + 1 := by
          simp; omega
        rw [e1, e2]
        simp [List.append_assoc]

/-- One drained record leaves `vals_per_line`, the channel count,
`msg_history` and `tele_mode` unchanged, and never decreases `lines_count`. -/
theorem drain_one_fields (s : AppState V) (r : List V) (s2 : AppState V)
    (h : drain_one s r = some s2) :
    s2.vals_per_line = s.vals_per_line ∧
    s2.data_history.length = s.data_history.length ∧
    s2.msg_history = s.msg_history ∧
    s2.tele_mode = s.tele_mode ∧
    (s2.lines_count = s.lines_count ∨ s2.lines_count = s.lines_count + 1) := by
  unfold drain_one at h
  by_cases h0 : 0 < s.vals_per_line
  · rw [if_pos h0] at h
    by_cases hg : s.vals_per_line ≤ s.data_history.length ∧ s.vals_per_line ≤ r.length
    · rw [if_pos hg] at h
      cases h
      refine ⟨rfl, ?_, rfl, rfl, Or.inr rfl⟩
      simp [List.length_zipWith]
      omega
    · rw [if_neg hg] at h
      cases h
  · rw [if_neg h0] at h
    cases h
    exact ⟨rfl, rfl, rfl, rfl, Or.inl rfl⟩

/-- Draining any backlog whose records are all at least as long as the
expected dimension succeeds (no panic). -/
theorem drain_all_isSome (records : List (List V)) : ∀ s : AppState V,
    s.vals_per_line ≤ s.data_history.length →
    (∀ r ∈ records, s.vals_per_line ≤ r.length) →
    (drain_all s records).isSome := by
  induction records with
  | nil => intro s _ _; rfl
  | cons r rs ih =>
    intro s hlen hrec
    have hsome : ∃ s2, drain_one s r = some s2 := by
      unfold drain_one
      by_cases h0 : 0 < s.vals_per_line
      · rw [if_pos h0, if_pos ⟨hlen, hrec r (by simp)⟩]
        exact ⟨_, rfl⟩
      · rw [if_neg h0]
        exact ⟨_, rfl⟩
    obtain ⟨s2, h2⟩ := hsome
    obtain ⟨f1, f2, _, _, _⟩ := drain_one_fields s r s2 h2
    have hstep : drain_all s (r :: rs) = drain_all s2 rs := by
      rw [drain_all, h2]
    rw [hstep]
    refine ih s2 (by omega) (fun q hq => ?_)
    rw [f1]
    exact hrec q (List.mem_cons_of_mem _ hq)

/-- A non-finite-token diagnostic is never equal to a cardinality-mismatch
diagnostic: the two format strings already differ at character index 9. -/
theorem nonfiniteMsg_ne_mismatchMsg (s : String) (e g : Nat) (l : String) :
    nonfiniteMsg s ≠ mismatchMsg e g l := by
  intro h
  have hd : (nonfiniteMsg s).data[9]? = (mismatchMsg e g l).data[9]? := by rw [h]
  rw [nonfiniteMsg, mismatchMsg] at hd
  simp only [String.data_append, List.append_assoc] at hd
  rw [List.getElem?_append, List.getElem?_append] at hd
  rw [if_pos (by decide), if_pos (by decide)] at hd
  exact absurd hd (by decide)

/-- C1 counterexample: errors originating in the ingestion/history core do
crash the render loop.  With the expected dimension at 9 (mode Imu), draining
a record of only 3 values (produced under the earlier Attitude dimension and
still in flight across the mode switch) panics with an index out of bounds
in `PlotterApp::update`, and a failed mode-command write panics through the
`unwrap` in `PlotterApp::apply_mode`; both render-loop steps abort (`none`). -/
theorem C1_counterexample :
    drain_one (⟨9, List.replicate 9 [], [], TeleCategory.Imu, 0, 0⟩ : AppState Int)
      [1, 2, 3] = none ∧
    select_mode (⟨9, List.replicate 9 [], [], TeleCategory.Imu, 0, 0⟩ : AppState Int)
      TeleCategory.Pid false = none :=
  ⟨by decide, by decide⟩

/-- C1 (amended): the Renderer tick's drain-and-append step completes without
aborting provided every drained record carries at least as many values as the
current expected dimension and the history has one buffer per expected
channel, and the mode-transition step completes without aborting provided the
mode-command write succeeds; when a drained record is shorter than the
current dimension, or the mode-command write fails, the render loop panics
(see the counterexample). -/
theorem C1_amended_no_abort (s : AppState V) (records : List (List V)) (m : TeleCategory)
    (hlen : s.vals_per_line ≤ s.data_history.length)
    (hrec : ∀ r ∈ records, s.vals_per_line ≤ r.length) :
    (drain_all s records).isSome ∧ (select_mode s m true).isSome := by
  refine ⟨drain_all_isSome records s hlen hrec, ?_⟩
  simp [select_mode, apply_mode]

/-- C1 witness: the amended no-abort theorem evaluated on a concrete state in
mode Attitude draining two well-formed records and then switching to Pid. -/
theorem C1_amended_no_abort_witness :
    ((3 : Nat) ≤ (List.replicate 3 ([] : List Int)).length ∧
      (∀ r ∈ [[(1 : Int), 2, 3], [4, 5, 6]], (3 : Nat) ≤ r.length)) ∧
    (drain_all (⟨3, List.replicate 3 [], [], TeleCategory.Attitude, 0, 0⟩ : AppState Int)
        [[1, 2, 3], [4, 5, 6]]).isSome ∧
    (select_mode (⟨3, List.replicate 3 [], [], TeleCategory.Attitude, 0, 0⟩ : AppState Int)
        TeleCategory.Pid true).isSome :=
  ⟨⟨by decide, by decide⟩,
    C1_amended_no_abort
      (⟨3, List.replicate 3 [], [], TeleCategory.Attitude, 0, 0⟩ : AppState Int)
      [[1, 2, 3], [4, 5, 6]] TeleCategory.Pid (by decide) (by decide)⟩

/-- C2 counterexample: with the shared expected dimension at 0 the worker is
not silent.  The line "2000000" (one token that parses but is non-finite in
the model, playing the role of an overflowing literal parsing to infinity)
produces a non-finite diagnostic, and — because the parsed-value count 0
equals the dimension 0 — an (empty) Record is sent on the data channel. -/
theorem C2_counterexample :
    input_line_step toyFloat 0 ["2000000"] = ([[]], [nonfiniteMsg "2000000"]) ∧
    (input_line_step toyFloat 0 ["2000000"]).1 ≠ [] ∧
    (input_line_step toyFloat 0 ["2000000"]).2 ≠ [] :=
  ⟨by decide, by decide, by decide⟩

/-- C2 (amended): while the shared expected dimension is 0, no
cardinality-mismatch diagnostic is ever produced and the per-token non-finite
diagnostics are exactly those of the parsing pass; any Record produced is the
empty one, and one (empty) Record is produced precisely when every token of
the line failed to parse or was non-finite (parsed count 0 = dimension 0). -/
theorem C2_amended (M : FloatModel V) (toks : List String) :
    (input_line_step M 0 toks).2 = (parseTokens M toks).2 ∧
    ((input_line_step M 0 toks).1 = [] ∨ (input_line_step M 0 toks).1 = [[]]) ∧
    ((input_line_step M 0 toks).1 = [[]] ↔ (parseTokens M toks).1 = []) := by
  unfold input_line_step
  by_cases h : (parseTokens M toks).1.length = 0
  · have h0 : (parseTokens M toks).1 = [] := List.length_eq_zero.mp h
    rw [if_pos h]
    simp [h0]
  · rw [if_neg h, if_neg (by simp)]
    have h1 : (parseTokens M toks).1 ≠ [] := by
      intro hc
      exact h (by rw [hc]; rfl)
    simp [h1]

/-- C3 counterexample: a token that fails to parse is excluded from the
parsed count but produces no diagnostic at all (the `.ok()` in io.rs discards
the parse error before the diagnostic-emitting closure runs).  For the line
"5,x" at dimension 1, the token "x" is dropped silently: the record [5] is
sent and the message channel stays empty — not the "exactly one diagnostic"
the claim requires. -/
theorem C3_counterexample :
    input_line_step toyFloat 1 ["5", "x"] = ([[(5 : Int)]], []) ∧
    nonfiniteMsg "x" ∉ (input_line_step toyFloat 1 ["5", "x"]).2 :=
  ⟨by decide, by decide⟩

/-- C3 (amended): the parsed values are exactly the tokens that parse to a
finite value, in original order, and one "Skipping non-finite value: <token>"
diagnostic is emitted per token that parses to a non-finite value, in token
order; a token that fails to parse is excluded from the count but emits no
diagnostic (`tokBad` is false when `parse` fails). -/
theorem C3_amended (M : FloatModel V) (toks : List String) :
    (parseTokens M toks).1 = toks.filterMap (tokVal M) ∧
    (parseTokens M toks).2 = (toks.filter (fun s => tokBad M s)).map nonfiniteMsg :=
  parseTokens_spec M toks

/-- C4 counterexample: a mode transition does not reset the total frame
counter.  From a state in mode Attitude with `lines_count` 5, switching to
Pid returns with `lines_count` still 5 (`apply_mode` never touches
`stats.lines_count`). -/
theorem C4_counterexample :
    (select_mode (⟨3, List.replicate 3 [], [], TeleCategory.Attitude, 5, 0⟩ : AppState Int)
        TeleCategory.Pid true).map AppState.lines_count = some 5 ∧
    (select_mode (⟨3, List.replicate 3 [], [], TeleCategory.Attitude, 5, 0⟩ : AppState Int)
        TeleCategory.Pid true).map AppState.lines_count ≠ some 0 :=
  ⟨by decide, by decide⟩

/-- C4 (amended): the total frame counter is never reset by any operation —
a mode transition leaves `lines_count` unchanged (it does not restart at 0),
and the drain step only ever leaves it unchanged or increments it by one. -/
theorem C4_amended (s : AppState V) (m : TeleCategory) (w : Bool) (s2 : AppState V)
    (r : List V) (s3 : AppState V)
    (hmode : select_mode s m w = some s2) (hdrain : drain_one s r = some s3) :
    s2.lines_count = s.lines_count ∧
    (s3.lines_count = s.lines_count ∨ s3.lines_count = s.lines_count + 1) := by
  refine ⟨?_, (drain_one_fields s r s3 hdrain).2.2.2.2⟩
  unfold select_mode apply_mode at hmode
  cases w
  · simp at hmode
  · simp only [if_pos] at hmode
    cases hmode
    rfl

/-- C4 witness: the amended theorem evaluated on a concrete state with
counter 5, one mode switch and one drained record. -/
theorem C4_amended_witness :
    (select_mode (⟨3, List.replicate 3 [], ["m"], TeleCategory.Attitude, 5, 7⟩ : AppState Int)
        TeleCategory.Pid true =
      some (⟨4, List.replicate 4 [], ["m"], TeleCategory.Pid, 5, 7⟩ : AppState Int) ∧
      drain_one (⟨3, List.replicate 3 [], ["m"], TeleCategory.Attitude, 5, 7⟩ : AppState Int)
        [1, 2, 3] =
      some (⟨3, [[1], [2], [3]], ["m"], TeleCategory.Attitude, 6, 8⟩ : AppState Int)) ∧
    ((⟨4, List.replicate 4 [], ["m"], TeleCategory.Pid, 5, 7⟩ : AppState Int).lines_count =
      (⟨3, List.replicate 3 [], ["m"], TeleCategory.Attitude, 5, 7⟩ : AppState Int).lines_count ∧
    ((⟨3, [[1], [2], [3]], ["m"], TeleCategory.Attitude, 6, 8⟩ : AppState Int).lines_count =
        (⟨3, List.replicate 3 [], ["m"], TeleCategory.Attitude, 5, 7⟩ : AppState Int).lines_count ∨
      (⟨3, [[1], [2], [3]], ["m"], TeleCategory.Attitude, 6, 8⟩ : AppState Int).lines_count =
        (⟨3, List.replicate 3 [], ["m"], TeleCategory.Attitude, 5, 7⟩ : AppState Int).lines_count
          + 1)) :=
  ⟨⟨by decide, by decide⟩,
    C4_amended _ TeleCategory.Pid true _ [1, 2, 3] _ (by decide) (by decide)⟩

/-- A token contributing a parsed value never triggers the non-finite
diagnostic. -/
theorem tokBad_eq_false (M : FloatModel V) (s : String) (h : (tokVal M s).isSome) :
    tokBad M s = false := by
  unfold tokVal at h
  unfold tokBad
  cases hp : M.parse s with
  | none => rfl
  | some v =>
    rw [hp] at h
    simp only at h ⊢
    cases hf : M.isFinite v with
    | true => simp [hf]
    | false => rw [hf] at h; simp at h

/-- When every token contributes a value, the parsed list pairs with the
token list pointwise, in order. -/
theorem forall2_filterMap (M : FloatModel V) (toks : List String)
    (h : ∀ s ∈ toks, (tokVal M s).isSome) :
    List.Forall₂ (fun s v => tokVal M s = some v) toks (toks.filterMap (tokVal M)) := by
  induction toks with
  | nil => simp
  | cons s rest ih =>
    obtain ⟨v, hv⟩ := Option.isSome_iff_exists.mp (h s (by simp))
    rw [List.filterMap_cons, hv]
    exact List.Forall₂.cons hv (ih (fun q hq => h q (by simp [hq])))

/-- C5 (confirmed): a line of exactly `dim` tokens, each parsing to a finite
value, at a nonzero expected dimension `dim`, yields exactly one Record
holding those `dim` values in original left-to-right token order, and no
diagnostic. -/
theorem C5_valid_line (M : FloatModel V) (dim : Nat) (toks : List String)
    (_hdim : dim ≠ 0) (hlen : toks.length = dim)
    (hfin : ∀ s ∈ toks, (tokVal M s).isSome) :
    ∃ vals : List V,
      input_line_step M dim toks = ([vals], []) ∧
      vals.length = dim ∧
      List.Forall₂ (fun s v => tokVal M s = some v) toks vals := by
  obtain ⟨h1, h2⟩ := parseTokens_spec M toks
  have hforall := forall2_filterMap M toks hfin
  have hvlen : (toks.filterMap (tokVal M)).length = dim := by
    rw [← hforall.length_eq]
    exact hlen
  have hmsgs : (parseTokens M toks).2 = [] := by
    rw [h2, List.filter_eq_nil_iff.mpr (fun s hs => by simp [tokBad_eq_false M s (hfin s hs)])]
    rfl
  refine ⟨toks.filterMap (tokVal M), ?_, hvlen, hforall⟩
  unfold input_line_step
  rw [if_pos (by rw [h1]; exact hvlen)]
  rw [h1, hmsgs]

/-- C5 witness: the theorem evaluated at mode-Attitude dimension 3 on the
line "1,2,3". -/
theorem C5_valid_line_witness :
    ((3 : Nat) ≠ 0 ∧ (["1", "2", "3"] : List String).length = 3 ∧
      (∀ s ∈ (["1", "2", "3"] : List String), (tokVal toyFloat s).isSome)) ∧
    (∃ vals : List Int,
      input_line_step toyFloat 3 ["1", "2", "3"] = ([vals], []) ∧
      vals.length = 3 ∧
      List.Forall₂ (fun s v => tokVal toyFloat s = some v) ["1", "2", "3"] vals) :=
  ⟨⟨by decide, by decide, by decide⟩,
    C5_valid_line toyFloat 3 ["1", "2", "3"] (by decide) (by decide) (by decide)⟩

/-- C6 (confirmed): when the parsed-value count differs from the nonzero
expected dimension, no Record is sent for that line, and the line's
diagnostics are the per-token non-finite ones followed by exactly one
cardinality-mismatch diagnostic — which by definition of `mismatchMsg` spells
out the expected count, the actual count and the single-quoted raw line. -/
theorem C6_mismatch (M : FloatModel V) (dim : Nat) (toks : List String)
    (hdim : dim ≠ 0)
    (hne : (parseTokens M toks).1.length ≠ dim) :
    input_line_step M dim toks =
      ([], (parseTokens M toks).2 ++
        [mismatchMsg dim (parseTokens M toks).1.length (String.intercalate "," toks)]) ∧
    List.count
      (mismatchMsg dim (parseTokens M toks).1.length (String.intercalate "," toks))
      (input_line_step M dim toks).2 = 1 := by
  have hstep : input_line_step M dim toks =
      ([], (parseTokens M toks).2 ++
        [mismatchMsg dim (parseTokens M toks).1.length (String.intercalate "," toks)]) := by
    unfold input_line_step
    rw [if_neg hne, if_pos hdim]
  refine ⟨hstep, ?_⟩
  rw [hstep]
  simp only [List.count_append]
  have hz : List.count
      (mismatchMsg dim (parseTokens M toks).1.length (String.intercalate "," toks))
      (parseTokens M toks).2 = 0 := by
    apply List.count_eq_zero.mpr
    intro hmem
    rw [(parseTokens_spec M toks).2] at hmem
    obtain ⟨s, _, hs⟩ := List.mem_map.mp hmem
    exact nonfiniteMsg_ne_mismatchMsg s _ _ _ hs
  rw [hz]
  simp

/-- C6 witness: the theorem evaluated at dimension 3 on the line "1,x,3",
whose middle token fails to parse, leaving 2 parsed values. -/
theorem C6_mismatch_witness :
    ((3 : Nat) ≠ 0 ∧ (parseTokens toyFloat ["1", "x", "3"]).1.length ≠ 3) ∧
    (input_line_step toyFloat 3 ["1", "x", "3"] =
      ([], (parseTokens toyFloat ["1", "x", "3"]).2 ++
        [mismatchMsg 3 (parseTokens toyFloat ["1", "x", "3"]).1.length
          (String.intercalate "," ["1", "x", "3"])]) ∧
    List.count
      (mismatchMsg 3 (parseTokens toyFloat ["1", "x", "3"]).1.length
        (String.intercalate "," ["1", "x", "3"]))
      (input_line_step toyFloat 3 ["1", "x", "3"]).2 = 1) :=
  ⟨⟨by decide, by decide⟩,
    C6_mismatch toyFloat 3 ["1", "x", "3"] (by decide) (by decide)⟩

/-- C7 (confirmed): appending T > 512 samples into one (initially empty)
channel ring buffer retains exactly the most recent 512 in arrival order —
the buffer equals the input sequence with its oldest T - 512 samples dropped
(FIFO eviction) — and the oldest retained sample is the one whose absolute
index is T - 512. -/
theorem C7_ring_buffer (samples : List V) (h : MAX_HISTORY_LEN < samples.length) :
    List.foldl enqueue [] samples = samples.drop (samples.length - MAX_HISTORY_LEN) ∧
    (List.foldl enqueue [] samples).length = MAX_HISTORY_LEN ∧
    (List.foldl enqueue [] samples).head? = samples[samples.length - MAX_HISTORY_LEN]? := by
  have hc := foldl_enqueue_closed samples [] (by simp)
  simp only [List.nil_append, List.length_nil, Nat.zero_add] at hc
  refine ⟨hc, ?_, ?_⟩
  · rw [hc, List.length_drop]
    omega
  · rw [hc, List.head?_drop]

/-- C7 witness: the theorem evaluated on 600 appended samples; the buffer
keeps samples 88 through 599. -/
theorem C7_ring_buffer_witness :
    MAX_HISTORY_LEN < (List.range 600).length ∧
    (List.foldl enqueue [] (List.range 600) =
      (List.range 600).drop ((List.range 600).length - MAX_HISTORY_LEN) ∧
    (List.foldl enqueue [] (List.range 600)).length = MAX_HISTORY_LEN ∧
    (List.foldl enqueue [] (List.range 600)).head? =
      (List.range 600)[(List.range 600).length - MAX_HISTORY_LEN]?) :=
  ⟨by simp [MAX_HISTORY_LEN], C7_ring_buffer (List.range 600) (by simp [MAX_HISTORY_LEN])⟩

/-- C8 (confirmed): whenever the mode-transition call into mode `m` returns
on the UI thread, the shared expected dimension (`VALS_PER_LINE`) equals
`m`'s dimension — with the dimension table None=0, Imu=9, Attitude=3, Pid=4,
Mix=4, Dshot=4 — and the history store is exactly that many channel buffers,
each empty. -/
theorem C8_mode_transition (s : AppState V) (m : TeleCategory) (w : Bool) (s2 : AppState V)
    (h : select_mode s m w = some s2) :
    s2.vals_per_line = mode_to_dim m ∧
    s2.data_history = List.replicate (mode_to_dim m) [] ∧
    s2.data_history.length = mode_to_dim m ∧
    (∀ b ∈ s2.data_history, b = []) ∧
    mode_to_dim TeleCategory.None = 0 ∧ mode_to_dim TeleCategory.Imu = 9 ∧
    mode_to_dim TeleCategory.Attitude = 3 ∧ mode_to_dim TeleCategory.Pid = 4 ∧
    mode_to_dim TeleCategory.Mix = 4 ∧ mode_to_dim TeleCategory.Dshot = 4 := by
  unfold select_mode apply_mode at h
  cases w
  · simp at h
  · simp only [if_pos] at h
    cases h
    refine ⟨rfl, rfl, List.length_replicate _ _, ?_, rfl, rfl, rfl, rfl, rfl, rfl⟩
    intro b hb
    exact List.eq_of_mem_replicate hb

/-- C8 witness: the theorem evaluated on a concrete Imu-mode state switching
into Attitude. -/
theorem C8_mode_transition_witness :
    (select_mode (⟨9, List.replicate 9 [], [], TeleCategory.Imu, 40, 1⟩ : AppState Int)
        TeleCategory.Attitude true =
      some (⟨3, List.replicate 3 [], [], TeleCategory.Attitude, 40, 1⟩ : AppState Int)) ∧
    ((⟨3, List.replicate 3 [], [], TeleCategory.Attitude, 40, 1⟩ : AppState Int).vals_per_line =
      mode_to_dim TeleCategory.Attitude ∧
    (⟨3, List.replicate 3 [], [], TeleCategory.Attitude, 40, 1⟩ : AppState Int).data_history =
      List.replicate (mode_to_dim TeleCategory.Attitude) [] ∧
    (⟨3, List.replicate 3 [], [], TeleCategory.Attitude, 40, 1⟩ :
        AppState Int).data_history.length = mode_to_dim TeleCategory.Attitude ∧
    (∀ b ∈ (⟨3, List.replicate 3 [], [], TeleCategory.Attitude, 40, 1⟩ :
        AppState Int).data_history, b = []) ∧
    mode_to_dim TeleCategory.None = 0 ∧ mode_to_dim TeleCategory.Imu = 9 ∧
    mode_to_dim TeleCategory.Attitude = 3 ∧ mode_to_dim TeleCategory.Pid = 4 ∧
    mode_to_dim TeleCategory.Mix = 4 ∧ mode_to_dim TeleCategory.Dshot = 4) :=
  ⟨by decide,
    C8_mode_transition (⟨9, List.replicate 9 [], [], TeleCategory.Imu, 40, 1⟩ : AppState Int)
      TeleCategory.Attitude true
      (⟨3, List.replicate 3 [], [], TeleCategory.Attitude, 40, 1⟩ : AppState Int) (by decide)⟩

/-- C9 counterexample: when the input port cannot be opened, the worker sends
the open-failure diagnostic and returns immediately; its final (and only)
diagnostic is not the exiting diagnostic, and does not even mention exiting —
so "on every exit the worker emits one final diagnostic stating that it is
exiting" fails on the source-open-failure path. -/
theorem C9_counterexample :
    input_thread toyFloat (Except.error "NoDevice") = ([], [openFailMsg "NoDevice"]) ∧
    openFailMsg "NoDevice" ≠ exitingMsg ∧
    ¬ ("exiting".toList <:+: (openFailMsg "NoDevice").toList) :=
  ⟨by decide, by decide, by decide⟩

/-- C9 (amended): on normal exit after the read loop the worker's last
diagnostic is the exiting message; on source-open failure it emits exactly
one diagnostic — the open-failure message, not an exiting message — and
terminates without entering the read loop (no records, no other output). -/
theorem C9_thread_exit (M : FloatModel V) (lines : List (Option (List String) × Nat))
    (e : String) :
    (input_thread M (Except.ok lines)).2.getLast? = some exitingMsg ∧
    input_thread M (Except.error e) = ([], [openFailMsg e]) := by
  constructor
  · simp [input_thread]
  · rfl

/-- C10 (confirmed, implicit behavior): draining a record strictly longer
than the current positive expected dimension succeeds silently — the first
`vals_per_line` values are enqueued one per channel, the frame counter and
the rate tally are incremented, no diagnostic is produced (`msg_history`
untouched), and the excess values are discarded. -/
theorem C10_overlong_record (s : AppState V) (record : List V)
    (hpos : 0 < s.vals_per_line)
    (hch : s.data_history.length = s.vals_per_line)
    (hover : s.vals_per_line < record.length) :
    ∃ s2, drain_one s record = some s2 ∧
      s2.data_history = List.zipWith enqueue s.data_history (record.take s.vals_per_line) ∧
      s2.lines_count = s.lines_count + 1 ∧
      s2.lines_since_update = s.lines_since_update + 1 ∧
      s2.msg_history = s.msg_history ∧
      s2.vals_per_line = s.vals_per_line ∧
      s2.tele_mode = s.tele_mode := by
  unfold drain_one
  rw [if_pos hpos, if_pos ⟨le_of_eq hch.symm, le_of_lt hover⟩]
  refine ⟨_, rfl, ?_, rfl, rfl, rfl, rfl, rfl⟩
  simp only
  rw [List.take_of_length_le (le_of_eq hch), List.drop_eq_nil_of_le (le_of_eq hch),
    List.append_nil]

/-- C10 witness: the theorem evaluated on a Pid-mode state (dimension 4)
draining a 9-value record left over from Imu mode. -/
theorem C10_overlong_record_witness :
    ((0 : Nat) < 4 ∧
      (⟨4, List.replicate 4 [], ["m"], TeleCategory.Pid, 10, 2⟩ :
        AppState Int).data_history.length = 4 ∧
      (4 : Nat) < ([1, 2, 3, 4, 5, 6, 7, 8, 9] : List Int).length) ∧
    (∃ s2, drain_one (⟨4, List.replicate 4 [], ["m"], TeleCategory.Pid, 10, 2⟩ : AppState Int)
        [1, 2, 3, 4, 5, 6, 7, 8, 9] = some s2 ∧
      s2.data_history = List.zipWith enqueue
        (⟨4, List.replicate 4 [], ["m"], TeleCategory.Pid, 10, 2⟩ :
          AppState Int).data_history
        (([1, 2, 3, 4, 5, 6, 7, 8, 9] : List Int).take 4) ∧
      s2.lines_count = 10 + 1 ∧
      s2.lines_since_update = 2 + 1 ∧
      s2.msg_history = ["m"] ∧
      s2.vals_per_line = 4 ∧
      s2.tele_mode = TeleCategory.Pid) :=
  ⟨⟨by decide, by decide, by decide⟩,
    C10_overlong_record _ [1, 2, 3, 4, 5, 6, 7, 8, 9] (by decide) (by decide) (by decide)⟩
